import Mathlib

/-
Verification of the TransformControls pointer-to-transform engine of nunuStudio
(source file: TransformControls, prototype methods attach, clear, setMode,
update, updatePose, onPointerHover, onPointerDown, onPointerMove, onPointerUp).

The embedding is a shallow, executable model over the rationals.  Camera math
(distances, normalization, raycasting) and the rotate-mode drag math (atan2,
axis-angle quaternions) are transcendental and live in external collaborators
(THREE); raycast results enter the model as explicit Option-valued inputs and
the rotate-mode per-frame object update is an explicit function parameter.
THREE.Matrix4 values reaching getInverse/applyMatrix4 in the modelled paths are
always extractRotation results (pure rotations, zero translation, bottom row
0 0 0 1), so they are modelled as 3x3 linear maps; applyMatrix4 on such a
matrix is exactly the 3x3 matrix-vector product, and getInverse is the 3x3
inverse with the legacy THREE fallback to the identity when the determinant is
zero.  JS Math.round(q) equals Mathlib round (floor of q + 1/2) on all inputs,
including negative halves.
-/

namespace NunuTransform

/-- Exact model of THREE.Vector3 with rational coordinates. -/
structure Vec3 where
  x : ℚ
  y : ℚ
  z : ℚ
deriving DecidableEq, Repr

instance : Inhabited Vec3 := ⟨⟨0, 0, 0⟩⟩

def Vec3.add (a b : Vec3) : Vec3 := ⟨a.x + b.x, a.y + b.y, a.z + b.z⟩

def Vec3.sub (a b : Vec3) : Vec3 := ⟨a.x - b.x, a.y - b.y, a.z - b.z⟩

/-- Component-wise product, model of THREE.Vector3.multiply. -/
def Vec3.mulV (a b : Vec3) : Vec3 := ⟨a.x * b.x, a.y * b.y, a.z * b.z⟩

/-- Model of THREE.Vector3.multiplyScalar. -/
def Vec3.smul (q : ℚ) (a : Vec3) : Vec3 := ⟨q * a.x, q * a.y, q * a.z⟩

/-- Model of THREE.Vector3.divideScalar. -/
def Vec3.divScalar (q : ℚ) (a : Vec3) : Vec3 := ⟨a.x / q, a.y / q, a.z / q⟩

/-- Rotation part of a THREE.Matrix4 (row-major 3x3 block).  All matrices fed
to getInverse or applyMatrix4 on the modelled code paths are extractRotation
results, so this block together with its linear action is a faithful model. -/
structure Mat3 where
  m00 : ℚ
  m01 : ℚ
  m02 : ℚ
  m10 : ℚ
  m11 : ℚ
  m12 : ℚ
  m20 : ℚ
  m21 : ℚ
  m22 : ℚ
deriving DecidableEq, Repr

def Mat3.idm : Mat3 := ⟨1, 0, 0, 0, 1, 0, 0, 0, 1⟩

instance : Inhabited Mat3 := ⟨Mat3.idm⟩

/-- Linear action: model of THREE.Vector3.applyMatrix4 for a matrix with zero
translation and bottom row 0 0 0 1 (every extractRotation result). -/
def Mat3.mulVec (m : Mat3) (v : Vec3) : Vec3 :=
  ⟨m.m00 * v.x + m.m01 * v.y + m.m02 * v.z,
   m.m10 * v.x + m.m11 * v.y + m.m12 * v.z,
   m.m20 * v.x + m.m21 * v.y + m.m22 * v.z⟩

def Mat3.det (m : Mat3) : ℚ :=
  m.m00 * (m.m11 * m.m22 - m.m12 * m.m21)
    - m.m01 * (m.m10 * m.m22 - m.m12 * m.m20)
    + m.m02 * (m.m10 * m.m21 - m.m11 * m.m20)

/-- Model of the legacy THREE.Matrix4.getInverse (adjugate over determinant,
identity fallback for a singular input), restricted to the rotation block. -/
def Mat3.inverse (m : Mat3) : Mat3 :=
  let d := m.det
  if d = 0 then Mat3.idm
  else
    ⟨(m.m11 * m.m22 - m.m12 * m.m21) / d,
     (m.m02 * m.m21 - m.m01 * m.m22) / d,
     (m.m01 * m.m12 - m.m02 * m.m11) / d,
     (m.m12 * m.m20 - m.m10 * m.m22) / d,
     (m.m00 * m.m22 - m.m02 * m.m20) / d,
     (m.m02 * m.m10 - m.m00 * m.m12) / d,
     (m.m10 * m.m21 - m.m11 * m.m20) / d,
     (m.m01 * m.m20 - m.m00 * m.m21) / d,
     (m.m00 * m.m11 - m.m01 * m.m10) / d⟩

/-- Exact model of THREE.Quaternion components. -/
structure Quat where
  x : ℚ
  y : ℚ
  z : ℚ
  w : ℚ
deriving DecidableEq, Repr

instance : Inhabited Quat := ⟨⟨0, 0, 0, 1⟩⟩

/-- CANNON shape kinds distinguished by the physics resync block. -/
inductive ShapeKind
  | box
  | sphere
  | other
deriving DecidableEq, Repr

/-- Model of a CANNON shape carried by a physics body. -/
structure Shape where
  kind : ShapeKind
  halfExtents : Vec3
  radius : ℚ
deriving DecidableEq, Repr

instance : Inhabited Shape := ⟨⟨ShapeKind.other, default, 0⟩⟩

/-- Model of a scene object as seen by TransformControls.  The matrix-derived
fields record the values the source reads out of the object, its matrices and
its parent matrices (extractRotation, setFromMatrixPosition, the scale of the
inverse parent world matrix); the scene graph maintaining them is external. -/
structure Obj where
  isObject3D : Bool
  locked : Bool
  hasParent : Bool
  position : Vec3
  scale : Vec3
  quaternion : Quat
  rotationMatrix : Mat3
  worldRotationMatrix : Mat3
  worldPosition : Vec3
  parentRotationMatrix : Mat3
  parentScale : Vec3
  isPhysics : Bool
  shapes : List Shape
deriving DecidableEq, Repr

instance : Inhabited Obj :=
  ⟨⟨true, false, true, default, default, default, Mat3.idm, Mat3.idm, default,
    Mat3.idm, default, false, []⟩⟩

/-- Model of TransformControlAtttributes, the per-object snapshot slot.  The
worldRotation Euler is modelled by the rotation matrix it encodes. -/
structure Attributes where
  parentRotationMatrix : Mat3
  parentScale : Vec3
  worldRotationMatrix : Mat3
  worldPosition : Vec3
  worldRotation : Mat3
  oldPosition : Vec3
  oldScale : Vec3
  oldQuaternion : Quat
  oldRotationMatrix : Mat3
deriving DecidableEq, Repr

instance : Inhabited Attributes :=
  ⟨⟨Mat3.idm, default, Mat3.idm, default, Mat3.idm, default, default, default,
    Mat3.idm⟩⟩

/-- The four TransformControls mode constants. -/
inductive Mode
  | NONE
  | TRANSLATE
  | ROTATE
  | SCALE
deriving DecidableEq, Repr

/-- The two TransformControls space constants. -/
inductive Space
  | LOCAL
  | WORLD
deriving DecidableEq, Repr

/-- The gizmo implementation chosen by setMode. -/
inductive GizmoKind
  | base
  | translate
  | rotate
  | scale
deriving DecidableEq, Repr

/-- State of a TransformControls instance.  The gizmoDismissals and
gizmoConstructions counters record the externally observable dispose and
construct calls of setMode; gizmoRotationArg and gizmoHighlightArg record the
arguments of the latest gizmo.update and gizmo.highlight calls issued by
updatePose. -/
structure Controls where
  objects : List Obj
  attributes : List Attributes
  space : Space
  axis : Option String
  snap : Bool
  translationSnap : ℚ
  rotationSnap : ℚ
  mode : Mode
  dragging : Bool
  editing : Bool
  visible : Bool
  position : Vec3
  offset : Vec3
  gizmo : GizmoKind
  gizmoDismissals : Nat
  gizmoConstructions : Nat
  gizmoRotationArg : Mat3
  gizmoHighlightArg : Option String
deriving DecidableEq, Repr

/-- Indexed map starting at a given index: the inner j-style loops of the
source that rewrite each list slot from its index. -/
def idxMapFrom (f : Nat → α → α) : Nat → List α → List α
  | _, [] => []
  | k, a :: as => f k a :: idxMapFrom f (k + 1) as

def idxMap (f : Nat → α → α) (l : List α) : List α := idxMapFrom f 0 l

/-- Model of the JS String.search(t) !== -1 test: t occurs as a contiguous
substring of s (the axis tokens contain no regex metacharacters). -/
def leadsWith : List Char → List Char → Bool
  | [], _ => true
  | _ :: _, [] => false
  | a :: as, b :: bs => a == b && leadsWith as bs

def hasSeq (sub : List Char) : List Char → Bool
  | [] => leadsWith sub []
  | c :: cs => leadsWith sub (c :: cs) || hasSeq sub cs

def searchIn (s t : String) : Bool := hasSeq t.data s.data

/-- Model of JS Math.round(q / snapv) * snapv, the snapping step. -/
def snapRound (snapv q : ℚ) : ℚ := ((round (q / snapv) : ℤ) : ℚ) * snapv

/-- Predicate of the attach filter: 3D-capable, unlocked and parented
(objects[i].isObject3D and not objects[i].locked and objects[i].parent is not
null). -/
def attachable (o : Obj) : Bool := o.isObject3D && !o.locked && o.hasParent

/-- Model of TransformControls.prototype.clear: empties the selection, hides
the controls and clears the axis selection. -/
def clear (s : Controls) : Controls :=
  { s with objects := [], visible := false, axis := none }

/-- Refresh step of updatePose on the attribute slot of object i: worldPosition
from the object world matrix position, worldRotation from its rotation part. -/
def refreshAttrs (objs : List Obj) (attrs : List Attributes) : List Attributes :=
  idxMap (fun i a =>
    if i < objs.length then
      { a with worldPosition := (objs.getD i default).worldPosition,
               worldRotation := (objs.getD i default).worldRotationMatrix }
    else a) attrs

/-- Model of TransformControls.prototype.updatePose.  The camera block
(camPosition, camRotation, toolScale, eye) is external camera math with no
bearing on the verified claims and is not part of the rational state; the
gizmo.update and gizmo.highlight calls are recorded through gizmoRotationArg
and gizmoHighlightArg.  A Space value is LOCAL or WORLD, so the source
else-if on WORLD is the else branch here; the Euler constructed for the WORLD
branch is the identity rotation. -/
def updatePose (s : Controls) : Controls :=
  if s.objects.length = 0 then clear s
  else if s.mode = Mode.NONE then s
  else
    let attrs := refreshAttrs s.objects s.attributes
    let sum := s.objects.foldl (fun acc o => Vec3.add acc o.worldPosition) ⟨0, 0, 0⟩
    let centroid :=
      if s.objects.length > 0 then Vec3.divScalar (s.objects.length : ℚ) sum else sum
    let rotArg :=
      if s.space = Space.LOCAL ∨ s.mode = Mode.SCALE then
        (attrs.getD 0 default).worldRotation
      else Mat3.idm
    { s with visible := true, position := centroid, attributes := attrs,
             gizmoRotationArg := rotArg, gizmoHighlightArg := s.axis }

/-- Model of TransformControls.prototype.attach: rebuilds the selection from
the filtered input, grows the attribute pool up to the selection size, then
recomputes the pose or clears. -/
def attach (s : Controls) (objects : List Obj) : Controls :=
  let sel := objects.filter attachable
  let attrs := s.attributes ++ List.replicate (sel.length - s.attributes.length) default
  let s := { s with objects := sel, attributes := attrs }
  if s.objects.length > 0 then updatePose s else clear s

/-- Gizmo implementation constructed by setMode for each mode. -/
def gizmoFor (m : Mode) : GizmoKind :=
  match m with
  | Mode.TRANSLATE => GizmoKind.translate
  | Mode.ROTATE => GizmoKind.rotate
  | Mode.SCALE => GizmoKind.scale
  | Mode.NONE => GizmoKind.base

/-- Model of TransformControls.prototype.setMode: early return on an unchanged
mode; otherwise dispose the old gizmo (dismiss when defined, then detach),
construct the gizmo of the new mode (forcing LOCAL space when entering SCALE),
set visibility from the selection and recompute the pose. -/
def setMode (s : Controls) (mode : Mode) : Controls :=
  if s.mode = mode then s
  else
    let s := { s with mode := mode }
    let s := { s with gizmoDismissals := s.gizmoDismissals + 1 }
    let s :=
      if mode = Mode.SCALE then
        { s with space := Space.LOCAL, gizmo := gizmoFor mode,
                 gizmoConstructions := s.gizmoConstructions + 1 }
      else
        { s with gizmo := gizmoFor mode,
                 gizmoConstructions := s.gizmoConstructions + 1 }
    let s := { s with visible := s.objects.length > 0 }
    updatePose s

/-- Snapshot step of onPointerDown on the attribute slot of object i: the
pre-drag position, scale, quaternion and rotation matrix, plus the world and
parent rotation matrices and the inverse parent scale. -/
def snapshotAttrs (objs : List Obj) (attrs : List Attributes) : List Attributes :=
  idxMap (fun i a =>
    if i < objs.length then
      let o := objs.getD i default
      { a with oldPosition := o.position,
               oldScale := o.scale,
               oldQuaternion := o.quaternion,
               oldRotationMatrix := o.rotationMatrix,
               worldRotationMatrix := o.worldRotationMatrix,
               parentRotationMatrix := o.parentRotationMatrix,
               parentScale := o.parentScale }
    else a) attrs

/-- Model of TransformControls.prototype.onPointerDown.  The raycasts against
the gizmo pickers and against the active plane are external geometry; their
results enter as pickerHit (the name of the nearest intersected picker) and
planeHit (the intersection point with the active plane).  The eye recompute
and gizmo.setActivePlane calls are external camera and gizmo geometry.
Dragging is set once a pick attempt was made, even without a plane hit. -/
def onPointerDown (s : Controls) (pickerHit : Option String)
    (planeHit : Option Vec3) : Controls :=
  if s.objects.length = 0 ∨ s.dragging = true ∨ s.mode = Mode.NONE then s
  else
    let s :=
      match pickerHit with
      | none => s
      | some name =>
        let s := { s with editing := true, axis := some name }
        let s := updatePose s
        match planeHit with
        | none => s
        | some p =>
          { s with attributes := snapshotAttrs s.objects s.attributes,
                   offset := p }
    { s with dragging := true }

/-- Inputs of a drag frame shared by the per-mode branches of onPointerMove. -/
structure DragCtx where
  attrs : List Attributes
  ax : String
  space : Space
  snap : Bool
  tsnap : ℚ
  hit : Vec3
  offset : Vec3

/-- Axis masking of the translate branch: a coordinate whose letter is not in
the axis token is zeroed. -/
def maskAxis (ax : String) (p : Vec3) : Vec3 :=
  ⟨if searchIn ax "X" then p.x else 0,
   if searchIn ax "Y" then p.y else 0,
   if searchIn ax "Z" then p.z else 0⟩

/-- Delta vector of outer iteration i of the translate branch: the plane hit
relative to the drag anchor, compensated by the parent inverse scale of object
i, masked by the axis token and rotated into the frame the space dictates. -/
def translateDelta (c : DragCtx) (i : Nat) : Vec3 :=
  let a := c.attrs.getD i default
  let p := Vec3.mulV (Vec3.sub c.hit c.offset) a.parentScale
  let p := maskAxis c.ax p
  if c.space = Space.WORLD ∨ searchIn c.ax "XYZ" then
    Mat3.mulVec (Mat3.inverse a.parentRotationMatrix) p
  else
    if c.ax.length > 1 then
      Mat3.mulVec a.oldRotationMatrix (Mat3.mulVec (Mat3.inverse a.worldRotationMatrix) p)
    else
      Mat3.mulVec a.oldRotationMatrix p

/-- Inner j-loop of the translate branch: every object position is rewritten
to its own snapshotted pre-drag position plus the given delta. -/
def setPositions (attrs : List Attributes) (d : Vec3) (objs : List Obj) : List Obj :=
  idxMap (fun j o => { o with position := Vec3.add (attrs.getD j default).oldPosition d }) objs

/-- Rounding of the active axis coordinates to the translation snap. -/
def snapPosition (ax : String) (tsnap : ℚ) (p : Vec3) : Vec3 :=
  ⟨if searchIn ax "X" then snapRound tsnap p.x else p.x,
   if searchIn ax "Y" then snapRound tsnap p.y else p.y,
   if searchIn ax "Z" then snapRound tsnap p.z else p.z⟩

/-- Snap block of outer iteration i of the translate branch: in LOCAL space
the position of object i is un-rotated, rounded on the active axes and
re-rotated; in WORLD space it is rounded in place. -/
def snapStep (c : DragCtx) (i : Nat) (objs : List Obj) : List Obj :=
  if c.snap then
    let a := c.attrs.getD i default
    let o := objs.getD i default
    let p := o.position
    let p := if c.space = Space.LOCAL then Mat3.mulVec (Mat3.inverse a.worldRotationMatrix) p else p
    let p := snapPosition c.ax c.tsnap p
    let p := if c.space = Space.LOCAL then Mat3.mulVec a.worldRotationMatrix p else p
    objs.set i { o with position := p }
  else objs

/-- Outer iteration i of the translate branch of onPointerMove. -/
def translateStep (c : DragCtx) (objs : List Obj) (i : Nat) : List Obj :=
  snapStep c i (setPositions c.attrs (translateDelta c i) objs)

/-- Translate branch of onPointerMove: the outer i-loop over all objects. -/
def translateFrame (c : DragCtx) (objs : List Obj) : List Obj :=
  (List.range objs.length).foldl (translateStep c) objs

/-- Physics resync of one CANNON shape from the new object scale: box half
extents are half the scale per axis, a sphere radius is the x scale. -/
def syncShape (sc : Vec3) (sh : Shape) : Shape :=
  if sh.kind = ShapeKind.box then
    { sh with halfExtents := ⟨sc.x / 2, sc.y / 2, sc.z / 2⟩ }
  else if sh.kind = ShapeKind.sphere then
    { sh with radius := sc.x }
  else sh

/-- Scale update of object i in the scale branch: the uniform token XYZ
multiplies the snapshotted scale by 1 plus the vertical delta on all axes; a
single-axis token first rotates the delta into the world rotation frame and
scales only the matching axis. -/
def scaleObjUpdate (c : DragCtx) (i : Nat) (o : Obj) : Obj :=
  let a := c.attrs.getD i default
  let p := Vec3.mulV (Vec3.sub c.hit c.offset) a.parentScale
  if c.ax = "XYZ" then
    { o with scale := Vec3.smul (1 + p.y) a.oldScale }
  else
    let p := Mat3.mulVec (Mat3.inverse a.worldRotationMatrix) p
    if c.ax = "X" then { o with scale := { o.scale with x := a.oldScale.x * (1 + p.x) } }
    else if c.ax = "Y" then { o with scale := { o.scale with y := a.oldScale.y * (1 + p.y) } }
    else if c.ax = "Z" then { o with scale := { o.scale with z := a.oldScale.z * (1 + p.z) } }
    else o

/-- Scale branch loop of onPointerMove, modelled step by step because the
physics resync block redeclares the loop variable i with var: the inner shape
loop runs i from 0 to shapes.length, so after a physics object the outer index
resumes from shapes.length + 1 instead of from the current object plus one.
The loop can therefore revisit or skip objects and need not terminate; fuel
exhaustion models divergence. -/
def scaleLoop (c : DragCtx) : Nat → Nat → List Obj → Option (List Obj)
  | 0, _, _ => none
  | fuel + 1, i, objs =>
    if i < objs.length then
      let o := scaleObjUpdate c i (objs.getD i default)
      let o := if o.isPhysics then { o with shapes := o.shapes.map (syncShape o.scale) } else o
      let objs := objs.set i o
      let i2 := if o.isPhysics then o.shapes.length else i
      scaleLoop c fuel (i2 + 1) objs
    else some objs

/-- Scale branch of onPointerMove.  The index walk of scaleLoop is a function
of the index alone (shape counts are loop invariants), so a run that has not
terminated within length plus two steps revisits an index and diverges: this
fuel is exact. -/
def scaleFrame (c : DragCtx) (objs : List Obj) : Option (List Obj) :=
  scaleLoop c (objs.length + 2) 0 objs

/-- Drag context of onPointerMove built from the controls state and the plane
hit of this frame. -/
def mkDragCtx (s : Controls) (ax : String) (hit : Vec3) : DragCtx :=
  ⟨s.attributes, ax, s.space, s.snap, s.translationSnap, hit, s.offset⟩

/-- Model of TransformControls.prototype.onPointerMove.  The plane raycast
result enters as planeHit; a missing hit drops the frame.  The rotate branch
composes quaternions from atan2 angles and axis-angle constructions, which is
transcendental camera math outside the rational model: it enters as the
explicit object-list update rotateUpd, and every verified claim holds for all
values of it.  A none result models a diverging scale loop. -/
def onPointerMove (s : Controls) (planeHit : Option Vec3)
    (rotateUpd : List Obj → List Obj) : Option Controls :=
  if s.objects.length = 0 ∨ s.axis = none ∨ s.dragging = false ∨ s.mode = Mode.NONE then
    some s
  else
    match planeHit, s.axis with
    | none, _ => some s
    | some _, none => some s
    | some hit, some ax =>
      let c := mkDragCtx s ax hit
      if s.mode = Mode.TRANSLATE then
        some (updatePose { s with objects := translateFrame c s.objects })
      else if s.mode = Mode.SCALE then
        match scaleFrame c s.objects with
        | none => none
        | some objs => some (updatePose { s with objects := objs })
      else if s.mode = Mode.ROTATE then
        some (updatePose { s with objects := rotateUpd s.objects })
      else some (updatePose s)

/-- Model of a ChangeAction record as pushed by onPointerUp: the index of the
target object, the component name and the new and previous values. -/
structure ChangeRecord where
  objIndex : Nat
  component : String
  newValue : ℚ
  oldValue : ℚ
deriving DecidableEq, Repr

instance : Inhabited ChangeRecord := ⟨⟨0, "", 0, 0⟩⟩

/-- Records pushed by the translate branch of onPointerUp: one per position
component of every object, new value against the snapshotted one. -/
def translateActions (objs : List Obj) (attrs : List Attributes) : List ChangeRecord :=
  (List.range objs.length).flatMap (fun i =>
    let o := objs.getD i default
    let a := attrs.getD i default
    [⟨i, "x", o.position.x, a.oldPosition.x⟩,
     ⟨i, "y", o.position.y, a.oldPosition.y⟩,
     ⟨i, "z", o.position.z, a.oldPosition.z⟩])

/-- Records pushed by the scale branch of onPointerUp. -/
def scaleActions (objs : List Obj) (attrs : List Attributes) : List ChangeRecord :=
  (List.range objs.length).flatMap (fun i =>
    let o := objs.getD i default
    let a := attrs.getD i default
    [⟨i, "x", o.scale.x, a.oldScale.x⟩,
     ⟨i, "y", o.scale.y, a.oldScale.y⟩,
     ⟨i, "z", o.scale.z, a.oldScale.z⟩])

/-- Records pushed by the rotate branch of onPointerUp: all four quaternion
components. -/
def rotateActions (objs : List Obj) (attrs : List Attributes) : List ChangeRecord :=
  (List.range objs.length).flatMap (fun i =>
    let o := objs.getD i default
    let a := attrs.getD i default
    [⟨i, "x", o.quaternion.x, a.oldQuaternion.x⟩,
     ⟨i, "y", o.quaternion.y, a.oldQuaternion.y⟩,
     ⟨i, "z", o.quaternion.z, a.oldQuaternion.z⟩,
     ⟨i, "w", o.quaternion.w, a.oldQuaternion.w⟩])

/-- Model of TransformControls.prototype.onPointerUp.  The second component is
the single ActionBundle submitted to Editor.addAction, none when no bundle is
submitted; editing and dragging are always cleared afterwards. -/
def onPointerUp (s : Controls) : Controls × Option (List ChangeRecord) :=
  let bundle :=
    if s.editing then
      if s.mode = Mode.TRANSLATE then some (translateActions s.objects s.attributes)
      else if s.mode = Mode.SCALE then some (scaleActions s.objects s.attributes)
      else if s.mode = Mode.ROTATE then some (rotateActions s.objects s.attributes)
      else none
    else none
  ({ s with editing := false, dragging := false }, bundle)

/-- Characterization target for the scale loop on physics-free selections:
every object from index k on is rewritten by its own scale update. -/
def scaleAll (c : DragCtx) (k : Nat) (objs : List Obj) : List Obj :=
  idxMap (fun j o => if k ≤ j then scaleObjUpdate c j o else o) objs

/-- Plain unlocked parented object at the origin with identity frames. -/
def objUnit : Obj :=
  ⟨true, false, true, ⟨0, 0, 0⟩, ⟨1, 1, 1⟩, ⟨0, 0, 0, 1⟩, Mat3.idm, Mat3.idm,
   ⟨0, 0, 0⟩, Mat3.idm, ⟨1, 1, 1⟩, false, []⟩

/-- Snapshot slot matching objUnit at drag start. -/
def attrUnit : Attributes :=
  ⟨Mat3.idm, ⟨1, 1, 1⟩, Mat3.idm, ⟨0, 0, 0⟩, Mat3.idm, ⟨0, 0, 0⟩, ⟨1, 1, 1⟩,
   ⟨0, 0, 0, 1⟩, Mat3.idm⟩

/-- Baseline controls state: one attached unit object, translate mode, world
space, snapping off. -/
def ctrlBase : Controls :=
  ⟨[objUnit], [attrUnit], Space.WORLD, none, false, 1, 1/10, Mode.TRANSLATE,
   false, false, true, ⟨0, 0, 0⟩, ⟨0, 0, 0⟩, GizmoKind.translate, 0, 0,
   Mat3.idm, none⟩

/-- Mid-drag scale state with the XYZE token the claim about uniform scaling
names. -/
def ctrlXYZE : Controls :=
  { ctrlBase with
    mode := Mode.SCALE, space := Space.LOCAL, axis := some "XYZE",
    dragging := true, gizmo := GizmoKind.scale }

/-- Mid-drag scale state with the XYZ token the scale branch tests for. -/
def ctrlScaleDrag : Controls :=
  { ctrlBase with
    mode := Mode.SCALE, space := Space.LOCAL, axis := some "XYZ",
    dragging := true, gizmo := GizmoKind.scale }

/-- State with an edit in progress and no component changed since the
snapshot. -/
def ctrlEditing : Controls := { ctrlBase with editing := true }

/-- State whose snapshot pool still holds a stale pre-drag position from an
earlier drag while the object sits at the origin. -/
def ctrlStale : Controls :=
  { ctrlBase with attributes := [{ attrUnit with oldPosition := ⟨5, 5, 5⟩ }] }

/-- Scale-mode state used to observe the updatePose gizmo orientation. -/
def ctrlScaleMode : Controls :=
  { ctrlBase with mode := Mode.SCALE, space := Space.LOCAL, gizmo := GizmoKind.scale }

/-- Mid-drag translate state on the X token in world space. -/
def ctrlDragX : Controls :=
  { ctrlBase with axis := some "X", dragging := true }

/-- Rotation about Z with cosine 3/5 and sine 4/5: a rational rotation whose
action does not preserve integrality. -/
def rotZ35 : Mat3 := ⟨3/5, -4/5, 0, 4/5, 3/5, 0, 0, 0, 1⟩

/-- Mid-drag translate state in local space with snapping on and a rotated
object frame. -/
def ctrlSnapLocal : Controls :=
  { ctrlBase with
    space := Space.LOCAL, snap := true, axis := some "X", dragging := true,
    objects := [{ objUnit with rotationMatrix := rotZ35, worldRotationMatrix := rotZ35 }],
    attributes := [{ attrUnit with oldRotationMatrix := rotZ35, worldRotationMatrix := rotZ35 }] }

/-- Mid-drag translate state in world space with snapping on. -/
def ctrlSnapWorld : Controls :=
  { ctrlBase with snap := true, axis := some "X", dragging := true }

/-- Physics object with two box shapes attached to a body. -/
def objPhys : Obj :=
  { objUnit with
    isPhysics := true,
    shapes := [⟨ShapeKind.box, ⟨0, 0, 0⟩, 0⟩, ⟨ShapeKind.box, ⟨0, 0, 0⟩, 0⟩] }

/-- Mid-drag scale state with a physics object first and a plain object
second. -/
def ctrlPhys : Controls :=
  { ctrlBase with
    mode := Mode.SCALE, space := Space.LOCAL, axis := some "XYZ",
    dragging := true, gizmo := GizmoKind.scale,
    objects := [objPhys, objUnit], attributes := [attrUnit, attrUnit] }

/-- Second object with a differently scaled parent frame. -/
def attrHalf : Attributes := { attrUnit with parentScale := ⟨2, 2, 2⟩ }

/-- Mid-drag translate state with two objects whose parent frames differ. -/
def ctrlTwo : Controls :=
  { ctrlBase with
    axis := some "X", dragging := true,
    objects := [objUnit, objUnit], attributes := [attrUnit, attrHalf] }

theorem Mat3.mulVec_zero (m : Mat3) : m.mulVec ⟨0, 0, 0⟩ = ⟨0, 0, 0⟩ := by
  simp [Mat3.mulVec]

theorem Vec3.add_zero_right (p : Vec3) : Vec3.add p ⟨0, 0, 0⟩ = p := by
  simp [Vec3.add]

theorem Vec3.sub_self_eq (p : Vec3) : Vec3.sub p p = ⟨0, 0, 0⟩ := by
  simp [Vec3.sub]

theorem Vec3.add_sub_cancel_right (o d : Vec3) : Vec3.sub (Vec3.add o d) d = o := by
  simp [Vec3.add, Vec3.sub]

theorem Vec3.mulV_zero_left (p : Vec3) : Vec3.mulV ⟨0, 0, 0⟩ p = ⟨0, 0, 0⟩ := by
  simp [Vec3.mulV]

theorem length_idxMapFrom (f : Nat → α → α) (k : Nat) (l : List α) :
    (idxMapFrom f k l).length = l.length := by
  induction l generalizing k with
  | nil => rfl
  | cons a as ih => simp [idxMapFrom, ih]

theorem length_idxMap (f : Nat → α → α) (l : List α) :
    (idxMap f l).length = l.length :=
  length_idxMapFrom f 0 l

theorem getD_idxMapFrom [Inhabited α] (f : Nat → α → α) (k j : Nat) (l : List α) :
    (idxMapFrom f k l).getD j default =
      if j < l.length then f (k + j) (l.getD j default) else default := by
  induction l generalizing k j with
  | nil => simp [idxMapFrom]
  | cons a as ih =>
    cases j with
    | zero => simp [idxMapFrom]
    | succ j =>
      simp only [idxMapFrom, List.getD_cons_succ, ih, List.length_cons,
        Nat.succ_lt_succ_iff]
      rw [show k + 1 + j = k + (j + 1) from by omega]

theorem getD_idxMap [Inhabited α] (f : Nat → α → α) (j : Nat) (l : List α) :
    (idxMap f l).getD j default =
      if j < l.length then f j (l.getD j default) else default := by
  rw [idxMap, getD_idxMapFrom]
  simp

theorem map_idxMapFrom (f : Nat → α → α) (proj : α → β) (k : Nat) (l : List α)
    (h : ∀ j a, proj (f j a) = proj a) :
    (idxMapFrom f k l).map proj = l.map proj := by
  induction l generalizing k with
  | nil => rfl
  | cons a as ih => simp [idxMapFrom, h, ih]

theorem getD_set_self [Inhabited α] (l : List α) (i : Nat) (a : α)
    (h : i < l.length) : (l.set i a).getD i default = a := by
  induction l generalizing i with
  | nil => simp at h
  | cons b bs ih =>
    cases i with
    | zero => rfl
    | succ i => simpa using ih i (by simpa using h)

theorem getD_set_ne [Inhabited α] (l : List α) (i j : Nat) (a : α)
    (h : i ≠ j) : (l.set i a).getD j default = l.getD j default := by
  induction l generalizing i j with
  | nil => rfl
  | cons b bs ih =>
    cases i with
    | zero =>
      cases j with
      | zero => exact absurd rfl h
      | succ j => rfl
    | succ i =>
      cases j with
      | zero => rfl
      | succ j => simpa using ih i j (by omega)

theorem listExtByGetD [Inhabited α] (l₁ l₂ : List α) (h : l₁.length = l₂.length)
    (hj : ∀ j, l₁.getD j default = l₂.getD j default) : l₁ = l₂ := by
  induction l₁ generalizing l₂ with
  | nil =>
    cases l₂ with
    | nil => rfl
    | cons b bs => simp at h
  | cons a as ih =>
    cases l₂ with
    | nil => simp at h
    | cons b bs =>
      have h0 := hj 0
      have ht := ih bs (by simpa using h) (fun j => by simpa using hj (j + 1))
      simp only [List.getD_cons_zero] at h0
      simp [h0, ht]

theorem updatePose_objects (s : Controls) : (updatePose s).objects = s.objects := by
  by_cases h1 : s.objects.length = 0
  · have h2 : s.objects = [] := List.length_eq_zero.mp h1
    simp [updatePose, h1, clear, h2]
  · by_cases h3 : s.mode = Mode.NONE <;> simp [updatePose, h1, h3]

theorem updatePose_mode (s : Controls) : (updatePose s).mode = s.mode := by
  by_cases h1 : s.objects.length = 0
  · simp [updatePose, h1, clear]
  · by_cases h3 : s.mode = Mode.NONE <;> simp [updatePose, h1, h3]

theorem updatePose_space (s : Controls) : (updatePose s).space = s.space := by
  by_cases h1 : s.objects.length = 0
  · simp [updatePose, h1, clear]
  · by_cases h3 : s.mode = Mode.NONE <;> simp [updatePose, h1, h3]

theorem updatePose_snap (s : Controls) : (updatePose s).snap = s.snap := by
  by_cases h1 : s.objects.length = 0
  · simp [updatePose, h1, clear]
  · by_cases h3 : s.mode = Mode.NONE <;> simp [updatePose, h1, h3]

theorem updatePose_tsnap (s : Controls) :
    (updatePose s).translationSnap = s.translationSnap := by
  by_cases h1 : s.objects.length = 0
  · simp [updatePose, h1, clear]
  · by_cases h3 : s.mode = Mode.NONE <;> simp [updatePose, h1, h3]

theorem updatePose_dragging (s : Controls) : (updatePose s).dragging = s.dragging := by
  by_cases h1 : s.objects.length = 0
  · simp [updatePose, h1, clear]
  · by_cases h3 : s.mode = Mode.NONE <;> simp [updatePose, h1, h3]

theorem updatePose_editing (s : Controls) : (updatePose s).editing = s.editing := by
  by_cases h1 : s.objects.length = 0
  · simp [updatePose, h1, clear]
  · by_cases h3 : s.mode = Mode.NONE <;> simp [updatePose, h1, h3]

theorem updatePose_offset (s : Controls) : (updatePose s).offset = s.offset := by
  by_cases h1 : s.objects.length = 0
  · simp [updatePose, h1, clear]
  · by_cases h3 : s.mode = Mode.NONE <;> simp [updatePose, h1, h3]

theorem updatePose_axis (s : Controls) (h : s.objects ≠ []) :
    (updatePose s).axis = s.axis := by
  have h1 : ¬ s.objects.length = 0 := by simpa [List.length_eq_zero] using h
  by_cases h3 : s.mode = Mode.NONE <;> simp [updatePose, h1, h3]

theorem refreshAttrs_old (objs : List Obj) (attrs : List Attributes) (i : Nat) :
    ((refreshAttrs objs attrs).getD i default).oldPosition
        = (attrs.getD i default).oldPosition ∧
      ((refreshAttrs objs attrs).getD i default).oldScale
        = (attrs.getD i default).oldScale ∧
      ((refreshAttrs objs attrs).getD i default).oldQuaternion
        = (attrs.getD i default).oldQuaternion ∧
      ((refreshAttrs objs attrs).getD i default).oldRotationMatrix
        = (attrs.getD i default).oldRotationMatrix ∧
      ((refreshAttrs objs attrs).getD i default).parentScale
        = (attrs.getD i default).parentScale ∧
      ((refreshAttrs objs attrs).getD i default).parentRotationMatrix
        = (attrs.getD i default).parentRotationMatrix ∧
      ((refreshAttrs objs attrs).getD i default).worldRotationMatrix
        = (attrs.getD i default).worldRotationMatrix := by
  rw [refreshAttrs, getD_idxMap]
  by_cases h : i < attrs.length
  · simp only [h, if_true]
    by_cases h2 : i < objs.length <;> simp [h2]
  · rw [if_neg h, List.getD_eq_default _ _ (Nat.le_of_not_lt h)]
    exact ⟨rfl, rfl, rfl, rfl, rfl, rfl, rfl⟩

theorem updatePose_attrs_old (s : Controls) (i : Nat) :
    (((updatePose s).attributes.getD i default).oldPosition
        = ((s.attributes.getD i default)).oldPosition) ∧
      (((updatePose s).attributes.getD i default).oldScale
        = ((s.attributes.getD i default)).oldScale) ∧
      (((updatePose s).attributes.getD i default).oldQuaternion
        = ((s.attributes.getD i default)).oldQuaternion) ∧
      (((updatePose s).attributes.getD i default).oldRotationMatrix
        = ((s.attributes.getD i default)).oldRotationMatrix) ∧
      (((updatePose s).attributes.getD i default).parentScale
        = ((s.attributes.getD i default)).parentScale) ∧
      (((updatePose s).attributes.getD i default).parentRotationMatrix
        = ((s.attributes.getD i default)).parentRotationMatrix) ∧
      (((updatePose s).attributes.getD i default).worldRotationMatrix
        = ((s.attributes.getD i default)).worldRotationMatrix) := by
  by_cases h1 : s.objects.length = 0
  · simp [updatePose, h1, clear]
  · by_cases h3 : s.mode = Mode.NONE
    · simp [updatePose, h1, h3]
    · have hb : (updatePose s).attributes = refreshAttrs s.objects s.attributes := by
        simp [updatePose, h1, h3]
      rw [hb]
      exact refreshAttrs_old s.objects s.attributes i

theorem setMode_mode (s : Controls) (m : Mode) : (setMode s m).mode = m := by
  by_cases h : s.mode = m
  · simp [setMode, h]
  · by_cases hm : m = Mode.SCALE
    · subst hm; simp [setMode, h, updatePose_mode]
    · simp [setMode, h, hm, updatePose_mode]

/-- C1: attach replaces the selection wholesale with exactly the 3D-capable,
unlocked, parented input objects in their original relative order, and the
selected objects are drawn unmodified from the input list. -/
theorem attach_filters_selection (s : Controls) (objects : List Obj) :
    (attach s objects).objects = objects.filter attachable ∧
      List.Sublist (objects.filter attachable) objects := by
  constructor
  · by_cases h : (objects.filter attachable).length > 0
    · simp only [attach, h, if_true]
      rw [updatePose_objects]
    · have h2 : objects.filter attachable = [] :=
        List.length_eq_zero.mp (Nat.eq_zero_of_not_pos h)
      simp [attach, h, clear, h2]
  · exact List.filter_sublist objects

/-- C5: entering SCALE mode forces LOCAL space, switching to any non-SCALE
mode leaves the space untouched (so a previous WORLD setting is not
restored), and while the mode is SCALE updatePose passes the world rotation
of the first selected object to the gizmo, not the identity. -/
theorem scale_forces_local_space (s : Controls) (m : Mode) :
    (s.mode ≠ Mode.SCALE → (setMode s Mode.SCALE).space = Space.LOCAL) ∧
      (m ≠ Mode.SCALE → (setMode s m).space = s.space) ∧
      (s.mode = Mode.SCALE → s.objects ≠ [] → s.attributes ≠ [] →
        (updatePose s).gizmoRotationArg
          = (s.objects.getD 0 default).worldRotationMatrix) := by
  refine ⟨fun hne => ?_, fun hm => ?_, fun hsc hobj hattr => ?_⟩
  · simp [setMode, hne, updatePose_space]
  · by_cases he : s.mode = m
    · simp [setMode, he]
    · simp [setMode, he, hm, updatePose_space]
  · have h1 : ¬ s.objects.length = 0 := by simpa [List.length_eq_zero] using hobj
    have h3 : ¬ s.mode = Mode.NONE := by rw [hsc]; decide
    have hrot : (updatePose s).gizmoRotationArg
        = ((refreshAttrs s.objects s.attributes).getD 0 default).worldRotation := by
      simp [updatePose, h1, h3, hsc]
    rw [hrot, refreshAttrs, getD_idxMap]
    have ha : 0 < s.attributes.length := List.length_pos.mpr hattr
    have ho : 0 < s.objects.length := List.length_pos.mpr hobj
    simp [ha, ho]

/-- C5 witness: at concrete states, setMode SCALE from translate mode yields
LOCAL space, setMode TRANSLATE from scale mode keeps the LOCAL space, and
updatePose in scale mode orients the gizmo to the first object world
rotation. -/
theorem scale_forces_local_space_witness :
    (setMode ctrlBase Mode.SCALE).space = Space.LOCAL ∧
      (setMode ctrlScaleMode Mode.TRANSLATE).space = ctrlScaleMode.space ∧
      (updatePose ctrlScaleMode).gizmoRotationArg
        = (ctrlScaleMode.objects.getD 0 default).worldRotationMatrix :=
  ⟨(scale_forces_local_space ctrlBase Mode.TRANSLATE).1 (by decide),
   (scale_forces_local_space ctrlScaleMode Mode.TRANSLATE).2.1 (by decide),
   (scale_forces_local_space ctrlScaleMode Mode.TRANSLATE).2.2 (by decide)
     (by decide) (by decide)⟩

/-- C6: setMode is idempotent: a second call with the same mode returns the
state unchanged, so the gizmo instance is the same and no dismiss or
construction happens on the second call. -/
theorem set_mode_idempotent (s : Controls) (m : Mode) :
    setMode (setMode s m) m = setMode s m := by
  conv_lhs => rw [setMode]
  rw [if_pos (setMode_mode s m)]

theorem onPointerMove_translate_eq (s : Controls) (hit : Vec3)
    (upd : List Obj → List Obj) (ax : String) (hobj : s.objects ≠ [])
    (hax : s.axis = some ax) (hdrag : s.dragging = true)
    (hmode : s.mode = Mode.TRANSLATE) :
    onPointerMove s (some hit) upd =
      some (updatePose { s with objects := translateFrame (mkDragCtx s ax hit) s.objects }) := by
  have h1 : ¬ s.objects.length = 0 := by simpa [List.length_eq_zero] using hobj
  simp [onPointerMove, h1, hax, hdrag, hmode]

theorem onPointerMove_scale_eq (s : Controls) (hit : Vec3)
    (upd : List Obj → List Obj) (ax : String) (objs2 : List Obj)
    (hobj : s.objects ≠ []) (hax : s.axis = some ax) (hdrag : s.dragging = true)
    (hmode : s.mode = Mode.SCALE)
    (hsf : scaleFrame (mkDragCtx s ax hit) s.objects = some objs2) :
    onPointerMove s (some hit) upd = some (updatePose { s with objects := objs2 }) := by
  have h1 : ¬ s.objects.length = 0 := by simpa [List.length_eq_zero] using hobj
  simp [onPointerMove, h1, hax, hdrag, hmode, hsf]

theorem length_setPositions (attrs : List Attributes) (d : Vec3) (objs : List Obj) :
    (setPositions attrs d objs).length = objs.length :=
  length_idxMap ..

theorem getD_setPositions (attrs : List Attributes) (d : Vec3) (objs : List Obj)
    (j : Nat) (h : j < objs.length) :
    (setPositions attrs d objs).getD j default =
      { objs.getD j default with
          position := Vec3.add (attrs.getD j default).oldPosition d } := by
  rw [setPositions, getD_idxMap]
  simp [h]

theorem length_snapStep (c : DragCtx) (i : Nat) (objs : List Obj) :
    (snapStep c i objs).length = objs.length := by
  by_cases h : c.snap <;> simp [snapStep, h]

theorem snapStep_of_not_snap (c : DragCtx) (h : c.snap = false) (i : Nat)
    (objs : List Obj) : snapStep c i objs = objs := by
  simp [snapStep, h]

theorem length_translateStep (c : DragCtx) (objs : List Obj) (i : Nat) :
    (translateStep c objs i).length = objs.length := by
  rw [translateStep, length_snapStep, length_setPositions]

theorem length_foldl_translateStep (c : DragCtx) (l : List Nat) (objs : List Obj) :
    (l.foldl (translateStep c) objs).length = objs.length := by
  induction l generalizing objs with
  | nil => rfl
  | cons i rest ih => rw [List.foldl_cons, ih, length_translateStep]

theorem length_translateFrame (c : DragCtx) (objs : List Obj) :
    (translateFrame c objs).length = objs.length :=
  length_foldl_translateStep ..

theorem translateFrame_getD (c : DragCtx) (objs : List Obj)
    (hn : objs.length ≠ 0) (hsnap : c.snap = false) (j : Nat)
    (hj : j < objs.length) :
    ((translateFrame c objs).getD j default).position =
      Vec3.add (c.attrs.getD j default).oldPosition
        (translateDelta c (objs.length - 1)) := by
  obtain ⟨n, hn2⟩ : ∃ n, objs.length = n + 1 :=
    ⟨objs.length - 1, (Nat.succ_pred_eq_of_pos (Nat.pos_of_ne_zero hn)).symm⟩
  have hfold : translateFrame c objs
      = translateStep c ((List.range n).foldl (translateStep c) objs) n := by
    rw [translateFrame, hn2, List.range_succ, List.foldl_append, List.foldl_cons,
      List.foldl_nil]
  have hlen : ((List.range n).foldl (translateStep c) objs).length = objs.length :=
    length_foldl_translateStep ..
  rw [hfold, translateStep, snapStep_of_not_snap c hsnap,
    getD_setPositions _ _ _ j (by rw [hlen]; exact hj)]
  rw [hn2]
  simp

theorem translateDelta_self (c : DragCtx) (h : c.hit = c.offset) (i : Nat) :
    translateDelta c i = ⟨0, 0, 0⟩ := by
  rw [translateDelta, h, Vec3.sub_self_eq, Vec3.mulV_zero_left]
  have hm : maskAxis c.ax ⟨0, 0, 0⟩ = ⟨0, 0, 0⟩ := by simp [maskAxis]
  rw [hm]
  split
  · exact Mat3.mulVec_zero ..
  · split <;> simp [Mat3.mulVec_zero]

theorem onPointerMove_translate_result (s : Controls) (hit : Vec3)
    (upd : List Obj → List Obj) (ax : String) (hobj : s.objects ≠ [])
    (hax : s.axis = some ax) (hdrag : s.dragging = true)
    (hmode : s.mode = Mode.TRANSLATE) (hsnap : s.snap = false) :
    ∃ s2, onPointerMove s (some hit) upd = some s2 ∧
      s2.objects.length = s.objects.length ∧ s2.objects ≠ [] ∧
      s2.axis = s.axis ∧ s2.dragging = s.dragging ∧ s2.mode = s.mode ∧
      s2.space = s.space ∧ s2.snap = s.snap ∧ s2.offset = s.offset ∧
      (∀ j, (s2.attributes.getD j default).oldPosition
        = (s.attributes.getD j default).oldPosition) ∧
      (∀ j, j < s.objects.length → (s2.objects.getD j default).position =
        Vec3.add (s.attributes.getD j default).oldPosition
          (translateDelta (mkDragCtx s ax hit) (s.objects.length - 1))) := by
  have hlen0 : s.objects.length ≠ 0 := by simpa [List.length_eq_zero] using hobj
  have hTFne : translateFrame (mkDragCtx s ax hit) s.objects ≠ [] :=
    List.length_pos.mp (by rw [length_translateFrame]; exact Nat.pos_of_ne_zero hlen0)
  refine ⟨updatePose { s with objects := translateFrame (mkDragCtx s ax hit) s.objects },
    onPointerMove_translate_eq s hit upd ax hobj hax hdrag hmode,
    ?_, ?_, ?_, ?_, ?_, ?_, ?_, ?_, ?_, ?_⟩
  · rw [updatePose_objects]; exact length_translateFrame ..
  · rw [updatePose_objects]; exact hTFne
  · rw [updatePose_axis _ hTFne]
  · rw [updatePose_dragging]
  · rw [updatePose_mode]
  · rw [updatePose_space]
  · rw [updatePose_snap]
  · rw [updatePose_offset]
  · exact fun j => (updatePose_attrs_old _ j).1
  · intro j hj
    rw [updatePose_objects]
    exact translateFrame_getD (mkDragCtx s ax hit) s.objects hlen0 hsnap j hj

/-- C7: in translate mode, world space, on the X token with snapping off, a
frame at drag delta d followed by a frame at drag delta d minus d returns
every attached object to its snapshotted pre-drag position, for arbitrary
parent rotation and scale in the snapshots. -/
theorem translate_round_trip (s : Controls) (d : Vec3)
    (upd : List Obj → List Obj) (hmode : s.mode = Mode.TRANSLATE)
    (_hspace : s.space = Space.WORLD) (hax : s.axis = some "X")
    (hdrag : s.dragging = true) (hsnap : s.snap = false)
    (hobj : s.objects ≠ [])
    (hpre : ∀ j, j < s.objects.length →
      (s.attributes.getD j default).oldPosition
        = (s.objects.getD j default).position) :
    ∃ s1 s2,
      onPointerMove s (some (Vec3.add s.offset d)) upd = some s1 ∧
      onPointerMove s1 (some (Vec3.sub (Vec3.add s.offset d) d)) upd = some s2 ∧
      ∀ j, j < s.objects.length →
        (s2.objects.getD j default).position
          = (s.objects.getD j default).position := by
  obtain ⟨s1, he1, hlen1, hne1, hax1, hdrag1, hmode1, _, hsnap1, hoff1, hold1, _⟩ :=
    onPointerMove_translate_result s (Vec3.add s.offset d) upd "X" hobj hax hdrag
      hmode hsnap
  obtain ⟨s2, he2, _, _, _, _, _, _, _, _, _, hpos2⟩ :=
    onPointerMove_translate_result s1 (Vec3.sub (Vec3.add s.offset d) d) upd "X"
      hne1 (hax1.trans hax) (hdrag1.trans hdrag) (hmode1.trans hmode)
      (hsnap1.trans hsnap)
  refine ⟨s1, s2, he1, he2, ?_⟩
  intro j hj
  have hj1 : j < s1.objects.length := by rw [hlen1]; exact hj
  have hd0 : translateDelta
      (mkDragCtx s1 "X" (Vec3.sub (Vec3.add s.offset d) d))
      (s1.objects.length - 1) = ⟨0, 0, 0⟩ := by
    apply translateDelta_self
    show Vec3.sub (Vec3.add s.offset d) d = s1.offset
    rw [hoff1, Vec3.add_sub_cancel_right]
  rw [hpos2 j hj1, hold1 j, hd0, Vec3.add_zero_right]
  exact hpre j hj

/-- C7 witness: the round trip at a concrete drag state with delta 1 2 3. -/
theorem translate_round_trip_witness :
    ∃ s1 s2,
      onPointerMove ctrlDragX (some (Vec3.add ctrlDragX.offset ⟨1, 2, 3⟩)) id = some s1 ∧
      onPointerMove s1
        (some (Vec3.sub (Vec3.add ctrlDragX.offset ⟨1, 2, 3⟩) ⟨1, 2, 3⟩)) id = some s2 ∧
      ∀ j, j < ctrlDragX.objects.length →
        (s2.objects.getD j default).position
          = (ctrlDragX.objects.getD j default).position :=
  translate_round_trip ctrlDragX ⟨1, 2, 3⟩ id (by decide) (by decide) (by decide)
    (by decide) (by decide) (by decide) (by decide)

/-- C10: in a translate drag frame with snapping off, every attached object
receives the same delta vector added to its own snapshotted pre-drag
position, and that delta is the one computed from the snapshot slot of the
last attached object, because the inner loop over all objects re-runs for
each outer index and the last iteration wins. -/
theorem translate_last_frame_wins (s : Controls) (ax : String) (hit : Vec3)
    (upd : List Obj → List Obj) (hmode : s.mode = Mode.TRANSLATE)
    (hax : s.axis = some ax) (hdrag : s.dragging = true) (hsnap : s.snap = false)
    (hn : 1 < s.objects.length) :
    ∃ s2, onPointerMove s (some hit) upd = some s2 ∧
      ∀ j, j < s.objects.length →
        (s2.objects.getD j default).position =
          Vec3.add (s.attributes.getD j default).oldPosition
            (translateDelta (mkDragCtx s ax hit) (s.objects.length - 1)) := by
  have hobj : s.objects ≠ [] := by
    intro hc; rw [hc] at hn; simp at hn
  obtain ⟨s2, he, _, _, _, _, _, _, _, _, _, hpos⟩ :=
    onPointerMove_translate_result s hit upd ax hobj hax hdrag hmode hsnap
  exact ⟨s2, he, hpos⟩

/-- C10 witness: two attached objects with differing snapshotted parent
scales both receive the delta of the last slot. -/
theorem translate_last_frame_wins_witness :
    ∃ s2, onPointerMove ctrlTwo (some ⟨1, 0, 0⟩) id = some s2 ∧
      ∀ j, j < ctrlTwo.objects.length →
        (s2.objects.getD j default).position =
          Vec3.add (ctrlTwo.attributes.getD j default).oldPosition
            (translateDelta (mkDragCtx ctrlTwo "X" ⟨1, 0, 0⟩)
              (ctrlTwo.objects.length - 1)) :=
  translate_last_frame_wins ctrlTwo "X" ⟨1, 0, 0⟩ id (by decide) (by decide)
    (by decide) (by decide) (by decide)

theorem translateFrame_getD_last_snap (c : DragCtx) (objs : List Obj)
    (hn : objs.length ≠ 0) (hsnap : c.snap = true)
    (hspace : c.space = Space.WORLD) :
    ((translateFrame c objs).getD (objs.length - 1) default).position =
      snapPosition c.ax c.tsnap
        (Vec3.add (c.attrs.getD (objs.length - 1) default).oldPosition
          (translateDelta c (objs.length - 1))) := by
  obtain ⟨n, hn2⟩ : ∃ n, objs.length = n + 1 :=
    ⟨objs.length - 1, (Nat.succ_pred_eq_of_pos (Nat.pos_of_ne_zero hn)).symm⟩
  have hidx : objs.length - 1 = n := by omega
  rw [hidx]
  have hfold : translateFrame c objs
      = translateStep c ((List.range n).foldl (translateStep c) objs) n := by
    rw [translateFrame, hn2, List.range_succ, List.foldl_append, List.foldl_cons,
      List.foldl_nil]
  have hinlen : ((List.range n).foldl (translateStep c) objs).length = objs.length :=
    length_foldl_translateStep ..
  have hnin : n < ((List.range n).foldl (translateStep c) objs).length := by
    rw [hinlen, hn2]; omega
  have hnset : n < (setPositions c.attrs (translateDelta c n)
      ((List.range n).foldl (translateStep c) objs)).length := by
    rw [length_setPositions, hinlen, hn2]; omega
  rw [hfold, translateStep, snapStep, if_pos hsnap, hspace]
  simp only [show (Space.WORLD = Space.LOCAL) = False by simp, if_false]
  rw [getD_set_self _ _ _ hnset]
  simp only
  rw [getD_setPositions _ _ _ n hnin]

/-- C8 amended: with snapping enabled and translation snap 1, in WORLD space,
after a translate drag frame the last attached object has an integer position
coordinate on every axis named in the active token; positions of earlier
objects are overwritten unsnapped by later outer iterations, and in LOCAL
space the rounding happens in the un-rotated frame, so the committed
coordinates need not be integers there (see the counterexample). -/
theorem snap_world_last_integer (s : Controls) (ax : String) (hit : Vec3)
    (upd : List Obj → List Obj) (hmode : s.mode = Mode.TRANSLATE)
    (hspace : s.space = Space.WORLD) (hax : s.axis = some ax)
    (hdrag : s.dragging = true) (hsnap : s.snap = true)
    (htsnap : s.translationSnap = 1) (hobj : s.objects ≠ []) :
    ∃ s2, onPointerMove s (some hit) upd = some s2 ∧
      (searchIn ax "X" = true → ∃ k : ℤ,
        (s2.objects.getD (s.objects.length - 1) default).position.x = (k : ℚ)) ∧
      (searchIn ax "Y" = true → ∃ k : ℤ,
        (s2.objects.getD (s.objects.length - 1) default).position.y = (k : ℚ)) ∧
      (searchIn ax "Z" = true → ∃ k : ℤ,
        (s2.objects.getD (s.objects.length - 1) default).position.z = (k : ℚ)) := by
  have hlen0 : s.objects.length ≠ 0 := by simpa [List.length_eq_zero] using hobj
  have hlast : ((translateFrame (mkDragCtx s ax hit) s.objects).getD
      (s.objects.length - 1) default).position =
      snapPosition ax s.translationSnap
        (Vec3.add ((s.attributes.getD (s.objects.length - 1) default)).oldPosition
          (translateDelta (mkDragCtx s ax hit) (s.objects.length - 1))) :=
    translateFrame_getD_last_snap (mkDragCtx s ax hit) s.objects hlen0 hsnap hspace
  refine ⟨_, onPointerMove_translate_eq s hit upd ax hobj hax hdrag hmode, ?_, ?_, ?_⟩
  all_goals intro hx
  all_goals rw [updatePose_objects]
  all_goals rw [show ({ s with objects := translateFrame (mkDragCtx s ax hit) s.objects }
      : Controls).objects = translateFrame (mkDragCtx s ax hit) s.objects from rfl]
  all_goals rw [hlast, htsnap]
  all_goals simp only [snapPosition, hx, if_true]
  all_goals exact ⟨_, by rw [snapRound, mul_one]⟩

/-- C8 witness: on the concrete world-space snapping state, a drag frame at a
non-integer hit point commits an integer x coordinate for the last object. -/
theorem snap_world_last_integer_witness :
    ∃ s2, onPointerMove ctrlSnapWorld (some ⟨7/2, 0, 0⟩) id = some s2 ∧
      (searchIn "X" "X" = true → ∃ k : ℤ,
        (s2.objects.getD (ctrlSnapWorld.objects.length - 1) default).position.x = (k : ℚ)) ∧
      (searchIn "X" "Y" = true → ∃ k : ℤ,
        (s2.objects.getD (ctrlSnapWorld.objects.length - 1) default).position.y = (k : ℚ)) ∧
      (searchIn "X" "Z" = true → ∃ k : ℤ,
        (s2.objects.getD (ctrlSnapWorld.objects.length - 1) default).position.z = (k : ℚ)) :=
  snap_world_last_integer ctrlSnapWorld "X" ⟨7/2, 0, 0⟩ id (by decide) (by decide)
    (by decide) (by decide) (by decide) (by decide) (by decide)

/-- C8 counterexample: in LOCAL space with snapping on and translation snap
1, a drag on the X token against a frame rotated by the rational 3-4-5
rotation commits position.x = 3/5, not an integer, refuting the claim for
LOCAL space. -/
theorem snap_local_counterexample :
    (onPointerMove ctrlSnapLocal (some ⟨1, 0, 0⟩) id).map
        (fun s => (s.objects.getD 0 default).position) = some ⟨3/5, 4/5, 0⟩ ∧
      ¬ ∃ k : ℤ, ((3 : ℚ)/5) = (k : ℚ) := by
  constructor
  · have hsX : searchIn "X" "X" = true := by decide
    have hsY : searchIn "X" "Y" = false := by decide
    have hsZ : searchIn "X" "Z" = false := by decide
    have hsXYZ : searchIn "X" "XYZ" = false := by decide
    have hxl : "X".length = 1 := by decide
    have hlw : ¬ (Space.LOCAL = Space.WORLD) := by decide
    have hwl : ¬ (Space.WORLD = Space.LOCAL) := by decide
    rw [onPointerMove_translate_eq ctrlSnapLocal ⟨1, 0, 0⟩ id "X" (by decide) rfl rfl rfl]
    simp only [Option.map_some', Option.some.injEq]
    rw [updatePose_objects]
    norm_num [translateFrame, translateStep, setPositions, snapStep, snapPosition,
      snapRound, translateDelta, maskAxis, mkDragCtx, idxMap, idxMapFrom,
      Mat3.inverse, Mat3.det, Mat3.mulVec, Mat3.idm, Vec3.add, Vec3.sub, Vec3.mulV,
      ctrlSnapLocal, ctrlBase, attrUnit, objUnit, rotZ35, hsX, hsY, hsZ, hsXYZ,
      hxl, hlw, hwl, List.range_succ, round_eq]
  · rintro ⟨k, hk⟩
    have h5 : (3 : ℚ) = (k : ℚ) * 5 := by
      field_simp at hk
      linarith
    have h5i : (3 : ℤ) = k * 5 := by exact_mod_cast h5
    omega

theorem onPointerDown_nohit_eq (s : Controls) (a : String)
    (h1 : ¬ s.objects.length = 0) (hdrag : s.dragging = false)
    (hmode : s.mode ≠ Mode.NONE) :
    onPointerDown s (some a) none
      = { updatePose { s with editing := true, axis := some a } with
          dragging := true } := by
  simp [onPointerDown, h1, hdrag, hmode]

/-- C4 counterexample: after a pointer-down whose plane raycast misses,
dragging is true, and a later move frame whose plane raycast hits moves the
attached object from the origin to the stale snapshot position 5 5 5 even
though the hit point coincides with the stored drag anchor, so the attached
transforms do not stay unchanged until pointer-up. -/
theorem stale_snapshot_counterexample :
    (onPointerDown ctrlStale (some "X") none).dragging = true ∧
      (onPointerMove (onPointerDown ctrlStale (some "X") none) (some ⟨0, 0, 0⟩) id).map
          (fun s => (s.objects.getD 0 default).position) = some ⟨5, 5, 5⟩ ∧
      (ctrlStale.objects.getD 0 default).position = ⟨0, 0, 0⟩ := by
  have heq := onPointerDown_nohit_eq ctrlStale "X" (by decide) (by decide) (by decide)
  have hmidobj : ({ ctrlStale with editing := true, axis := some "X" } : Controls).objects
      ≠ [] := by decide
  refine ⟨by rw [heq], ?_, by decide⟩
  rw [heq]
  set M : Controls :=
    { updatePose { ctrlStale with editing := true, axis := some "X" } with
      dragging := true } with hM
  have hMobj : M.objects = ctrlStale.objects := by
    rw [hM]; exact updatePose_objects _
  have hMne : M.objects ≠ [] := by rw [hMobj]; decide
  have hMax : M.axis = some "X" := by rw [hM]; exact updatePose_axis _ hmidobj
  have hMmode : M.mode = Mode.TRANSLATE := by
    rw [hM]; exact updatePose_mode _
  rw [onPointerMove_translate_eq M ⟨0, 0, 0⟩ id "X" hMne hMax rfl hMmode]
  simp only [Option.map_some', Option.some.injEq]
  have hOB : (updatePose { M with
      objects := translateFrame (mkDragCtx M "X" ⟨0, 0, 0⟩) M.objects }).objects
      = translateFrame (mkDragCtx M "X" ⟨0, 0, 0⟩) M.objects :=
    updatePose_objects _
  rw [hOB]
  have hMlen : M.objects.length ≠ 0 := by rw [hMobj]; decide
  have hMsnap : (mkDragCtx M "X" (⟨0, 0, 0⟩ : Vec3)).snap = false := by
    rw [hM]; exact updatePose_snap _
  have hTD := translateFrame_getD (mkDragCtx M "X" ⟨0, 0, 0⟩) M.objects hMlen
    hMsnap 0 (by rw [hMobj]; decide)
  rw [hTD]
  have hd0 : translateDelta (mkDragCtx M "X" ⟨0, 0, 0⟩) (M.objects.length - 1)
      = ⟨0, 0, 0⟩ := by
    apply translateDelta_self
    show (⟨0, 0, 0⟩ : Vec3) = M.offset
    rw [hM]
    exact (updatePose_offset
      { ctrlStale with editing := true, axis := some "X" }).symm
  rw [hd0, Vec3.add_zero_right]
  rw [hM]
  have hold := (updatePose_attrs_old
    { ctrlStale with editing := true, axis := some "X" } 0).1
  rw [show (mkDragCtx { updatePose { ctrlStale with editing := true, axis := some "X" }
      with dragging := true } "X" (⟨0, 0, 0⟩ : Vec3)).attrs
    = (updatePose { ctrlStale with editing := true, axis := some "X" }).attributes
    from rfl, hold]
  decide

/-- C4 amended: a pointer-down with a picker hit but no plane hit still sets
dragging to true and leaves every pre-drag snapshot slot unrefreshed, and
move frames whose plane raycast misses leave the state unchanged; a later
frame whose raycast hits applies the drag math against the stale snapshots
(see the counterexample). -/
theorem pointer_down_no_plane_hit (s : Controls) (a : String)
    (upd : List Obj → List Obj) (hobj : s.objects ≠ [])
    (hdrag : s.dragging = false) (hmode : s.mode ≠ Mode.NONE) :
    (onPointerDown s (some a) none).dragging = true ∧
      ((onPointerDown s (some a) none).attributes.map
          (fun t => (t.oldPosition, t.oldScale, t.oldQuaternion, t.oldRotationMatrix))
        = s.attributes.map
          (fun t => (t.oldPosition, t.oldScale, t.oldQuaternion, t.oldRotationMatrix))) ∧
      (∀ s3 : Controls, onPointerMove s3 none upd = some s3) := by
  have h1 : ¬ s.objects.length = 0 := by simpa [List.length_eq_zero] using hobj
  have heq : onPointerDown s (some a) none
      = { updatePose { s with editing := true, axis := some a } with dragging := true } := by
    simp [onPointerDown, h1, hdrag, hmode]
  have h2 : (updatePose { s with editing := true, axis := some a }).attributes
      = refreshAttrs s.objects s.attributes := by
    simp [updatePose, h1, hmode]
  refine ⟨?_, ?_, ?_⟩
  · rw [heq]
  · rw [heq]
    rw [show ({ updatePose { s with editing := true, axis := some a } with
        dragging := true } : Controls).attributes
      = (updatePose { s with editing := true, axis := some a }).attributes from rfl, h2]
    exact map_idxMapFrom _ _ 0 _
      (fun j t => by by_cases hj : j < s.objects.length <;> simp [hj])
  · intro s3
    by_cases hg : (s3.objects.length = 0 ∨ s3.axis = none ∨ s3.dragging = false
        ∨ s3.mode = Mode.NONE) <;> simp [onPointerMove, hg]

theorem scaleObjUpdate_isPhysics (c : DragCtx) (i : Nat) (o : Obj) :
    (scaleObjUpdate c i o).isPhysics = o.isPhysics := by
  simp only [scaleObjUpdate]
  split
  · rfl
  · split
    · rfl
    · split
      · rfl
      · split
        · rfl
        · rfl

theorem idxMapFrom_eq_self (f : Nat → α → α) (k : Nat) (l : List α)
    (h : ∀ j a, j < l.length → f (k + j) a = a) : idxMapFrom f k l = l := by
  induction l generalizing k with
  | nil => rfl
  | cons a as ih =>
    rw [idxMapFrom]
    have h0 : f k a = a := by
      have := h 0 a (by simp)
      simpa using this
    rw [h0, ih (k + 1) (fun j b hj => by
      have := h (j + 1) b (by simpa using Nat.succ_lt_succ hj)
      rwa [show k + (j + 1) = k + 1 + j from by omega] at this)]

theorem length_scaleAll (c : DragCtx) (k : Nat) (objs : List Obj) :
    (scaleAll c k objs).length = objs.length :=
  length_idxMap ..

theorem getD_scaleAll (c : DragCtx) (k j : Nat) (objs : List Obj) :
    (scaleAll c k objs).getD j default =
      if j < objs.length then
        (if k ≤ j then scaleObjUpdate c j (objs.getD j default)
         else objs.getD j default)
      else default := by
  rw [scaleAll, getD_idxMap]

theorem scaleAll_ge (c : DragCtx) (k : Nat) (objs : List Obj)
    (h : objs.length ≤ k) : scaleAll c k objs = objs := by
  apply idxMapFrom_eq_self
  intro j a hj
  rw [if_neg]
  omega

theorem scaleAll_set_step (c : DragCtx) (objs : List Obj) (i : Nat)
    (h : i < objs.length) :
    scaleAll c (i + 1) (objs.set i (scaleObjUpdate c i (objs.getD i default)))
      = scaleAll c i objs := by
  apply listExtByGetD
  · rw [length_scaleAll, length_scaleAll, List.length_set]
  · intro j
    rw [getD_scaleAll, getD_scaleAll, List.length_set]
    by_cases hj : j < objs.length
    · simp only [hj, if_true]
      rcases Nat.lt_trichotomy j i with hlt | heq | hgt
      · rw [if_neg (by omega), if_neg (by omega), getD_set_ne _ _ _ _ (by omega)]
      · subst heq
        rw [if_neg (by omega), if_pos (le_refl j), getD_set_self _ _ _ h]
      · rw [if_pos (by omega), if_pos (by omega), getD_set_ne _ _ _ _ (by omega)]
    · simp [hj]

theorem scaleLoop_nophys (c : DragCtx) :
    ∀ (fuel i : Nat) (objs : List Obj), (∀ o ∈ objs, o.isPhysics = false) →
      0 < fuel → objs.length < i + fuel →
      scaleLoop c fuel i objs = some (scaleAll c i objs) := by
  intro fuel
  induction fuel with
  | zero => intro i objs hp hf hle; omega
  | succ fuel ih =>
    intro i objs hp hf hle
    by_cases hi : i < objs.length
    · have hmem : objs.getD i default ∈ objs := by
        rw [List.getD_eq_getElem _ _ hi]
        exact List.getElem_mem hi
      have hnp : (scaleObjUpdate c i (objs.getD i default)).isPhysics = false := by
        rw [scaleObjUpdate_isPhysics]
        exact hp _ hmem
      rw [scaleLoop, if_pos hi]
      simp only [hnp, Bool.false_eq_true, if_false]
      have hp2 : ∀ o ∈ objs.set i (scaleObjUpdate c i (objs.getD i default)),
          o.isPhysics = false := by
        intro o ho
        rcases List.mem_or_eq_of_mem_set ho with h1 | h2
        · exact hp o h1
        · rw [h2]; exact hnp
      rw [ih (i + 1) _ hp2 (by omega) (by rw [List.length_set]; omega)]
      rw [scaleAll_set_step c objs i hi]
    · rw [scaleLoop, if_neg hi]
      rw [scaleAll_ge c i objs (Nat.le_of_not_lt hi)]

theorem scaleFrame_nophys (c : DragCtx) (objs : List Obj)
    (hp : ∀ o ∈ objs, o.isPhysics = false) :
    scaleFrame c objs = some (scaleAll c 0 objs) :=
  scaleLoop_nophys c (objs.length + 2) 0 objs hp (by omega) (by omega)

/-- C2 amended: in SCALE mode a drag on the uniform axis token XYZ (the token
the scale branch actually tests; the claimed XYZE token matches no scale
case) sets, for a physics-free selection, every attached object scale to the
snapshotted scale multiplied by one plus the parent-scale-compensated
vertical delta, on all three axes simultaneously. -/
theorem scale_uniform_xyz (s : Controls) (hit : Vec3) (upd : List Obj → List Obj)
    (hmode : s.mode = Mode.SCALE) (hax : s.axis = some "XYZ")
    (hdrag : s.dragging = true) (hobj : s.objects ≠ [])
    (hphys : ∀ o ∈ s.objects, o.isPhysics = false) :
    ∃ s2, onPointerMove s (some hit) upd = some s2 ∧
      ∀ i, i < s.objects.length →
        (s2.objects.getD i default).scale =
          Vec3.smul
            (1 + (Vec3.mulV (Vec3.sub hit s.offset)
              ((s.attributes.getD i default)).parentScale).y)
            ((s.attributes.getD i default)).oldScale := by
  have hsf := scaleFrame_nophys (mkDragCtx s "XYZ" hit) s.objects hphys
  have he := onPointerMove_scale_eq s hit upd "XYZ" _ hobj hax hdrag hmode hsf
  refine ⟨_, he, ?_⟩
  intro i hi
  rw [updatePose_objects]
  rw [show ({ s with objects := scaleAll (mkDragCtx s "XYZ" hit) 0 s.objects }
      : Controls).objects = scaleAll (mkDragCtx s "XYZ" hit) 0 s.objects from rfl]
  rw [getD_scaleAll, if_pos hi, if_pos (Nat.zero_le i)]
  show (scaleObjUpdate (mkDragCtx s "XYZ" hit) i (s.objects.getD i default)).scale = _
  rw [scaleObjUpdate]
  simp only [mkDragCtx]
  simp

/-- C2 witness: the uniform XYZ drag at the concrete scale state with
vertical delta 1. -/
theorem scale_uniform_xyz_witness :
    ∃ s2, onPointerMove ctrlScaleDrag (some ⟨0, 1, 0⟩) id = some s2 ∧
      ∀ i, i < ctrlScaleDrag.objects.length →
        (s2.objects.getD i default).scale =
          Vec3.smul
            (1 + (Vec3.mulV (Vec3.sub ⟨0, 1, 0⟩ ctrlScaleDrag.offset)
              ((ctrlScaleDrag.attributes.getD i default)).parentScale).y)
            ((ctrlScaleDrag.attributes.getD i default)).oldScale :=
  scale_uniform_xyz ctrlScaleDrag ⟨0, 1, 0⟩ id (by decide) (by decide) (by decide)
    (by decide) (by decide)

/-- C2 counterexample: a scale drag on the XYZE token named by the claim
matches neither the uniform XYZ case nor any single-axis case of the scale
branch, so at vertical delta 1 the attached object scale stays 1 1 1 while
the claim demands the doubled scale 2 2 2. -/
theorem scale_xyze_counterexample :
    (onPointerMove ctrlXYZE (some ⟨0, 1, 0⟩) id).map
        (fun s => (s.objects.getD 0 default).scale) = some ⟨1, 1, 1⟩ ∧
      Vec3.smul (1 + (1 : ℚ)) ((ctrlXYZE.attributes.getD 0 default)).oldScale
        = ⟨2, 2, 2⟩ ∧
      ((⟨1, 1, 1⟩ : Vec3) ≠ ⟨2, 2, 2⟩) := by
  refine ⟨by decide, ?_, by decide⟩
  norm_num [Vec3.smul, ctrlXYZE, ctrlBase, attrUnit]

/-- C9: in SCALE mode the loop over the attached objects is broken by the
physics resync block redeclaring the loop variable with var: at the failing
input (a physics object with two box shapes first, a plain object second,
uniform XYZ drag with vertical delta 1) the first object is scaled to 2 2 2
and its box half extents resynchronized to 1 1 1 each, but the outer index
resumes past the second object, whose scale stays 1 1 1 instead of the
2 2 2 the per-mode math would give from its snapshot. -/
theorem scale_physics_loop_skips :
    ∃ s2, onPointerMove ctrlPhys (some ⟨0, 1, 0⟩) id = some s2 ∧
      (s2.objects.getD 0 default).scale = ⟨2, 2, 2⟩ ∧
      (s2.objects.getD 0 default).shapes.map Shape.halfExtents
        = [⟨1, 1, 1⟩, ⟨1, 1, 1⟩] ∧
      (s2.objects.getD 1 default).scale = ⟨1, 1, 1⟩ ∧
      Vec3.smul (1 + (1 : ℚ)) ((ctrlPhys.attributes.getD 1 default)).oldScale
        = ⟨2, 2, 2⟩ := by
  have hsf : scaleFrame (mkDragCtx ctrlPhys "XYZ" ⟨0, 1, 0⟩) ctrlPhys.objects =
      some [{ objPhys with
                scale := ⟨2, 2, 2⟩,
                shapes := [⟨ShapeKind.box, ⟨1, 1, 1⟩, 0⟩,
                           ⟨ShapeKind.box, ⟨1, 1, 1⟩, 0⟩] },
             objUnit] := by
    norm_num [scaleFrame, scaleLoop, scaleObjUpdate, syncShape, mkDragCtx, ctrlPhys,
      ctrlBase, attrUnit, objPhys, objUnit, Vec3.sub, Vec3.mulV, Vec3.smul]
  have he := onPointerMove_scale_eq ctrlPhys ⟨0, 1, 0⟩ id "XYZ" _ (by decide)
    (by decide) (by decide) (by decide) hsf
  refine ⟨_, he, ?_, ?_, ?_, ?_⟩
  · rw [updatePose_objects]; decide
  · rw [updatePose_objects]; decide
  · rw [updatePose_objects]; decide
  · norm_num [Vec3.smul, ctrlPhys, ctrlBase, attrUnit]

theorem sum_map_len_const {α : Type} (k : Nat) (g : Nat → List α)
    (h : ∀ i, (g i).length = k) :
    ∀ l : List Nat, (l.map (List.length ∘ g)).sum = l.length * k := by
  intro l
  induction l with
  | nil => simp
  | cons a as ih => simp [Function.comp, h, ih, Nat.succ_mul, Nat.add_comm]

theorem length_translateActions (objs : List Obj) (attrs : List Attributes) :
    (translateActions objs attrs).length = 3 * objs.length := by
  rw [translateActions, List.length_flatMap]
  refine (sum_map_len_const 3 _ ?_ _).trans ?_
  · intro i; rfl
  · rw [List.length_range, Nat.mul_comm]

theorem length_scaleActions (objs : List Obj) (attrs : List Attributes) :
    (scaleActions objs attrs).length = 3 * objs.length := by
  rw [scaleActions, List.length_flatMap]
  refine (sum_map_len_const 3 _ ?_ _).trans ?_
  · intro i; rfl
  · rw [List.length_range, Nat.mul_comm]

theorem length_rotateActions (objs : List Obj) (attrs : List Attributes) :
    (rotateActions objs attrs).length = 4 * objs.length := by
  rw [rotateActions, List.length_flatMap]
  refine (sum_map_len_const 4 _ ?_ _).trans ?_
  · intro i; rfl
  · rw [List.length_range, Nat.mul_comm]

theorem mem_translateActions (objs : List Obj) (attrs : List Attributes)
    (i : Nat) (hi : i < objs.length) :
    (⟨i, "x", (objs.getD i default).position.x,
        (attrs.getD i default).oldPosition.x⟩ : ChangeRecord)
        ∈ translateActions objs attrs ∧
      (⟨i, "y", (objs.getD i default).position.y,
        (attrs.getD i default).oldPosition.y⟩ : ChangeRecord)
        ∈ translateActions objs attrs ∧
      (⟨i, "z", (objs.getD i default).position.z,
        (attrs.getD i default).oldPosition.z⟩ : ChangeRecord)
        ∈ translateActions objs attrs := by
  refine ⟨?_, ?_, ?_⟩ <;>
    exact List.mem_flatMap.mpr ⟨i, List.mem_range.mpr hi, by simp⟩

theorem mem_scaleActions (objs : List Obj) (attrs : List Attributes)
    (i : Nat) (hi : i < objs.length) :
    (⟨i, "x", (objs.getD i default).scale.x,
        (attrs.getD i default).oldScale.x⟩ : ChangeRecord)
        ∈ scaleActions objs attrs ∧
      (⟨i, "y", (objs.getD i default).scale.y,
        (attrs.getD i default).oldScale.y⟩ : ChangeRecord)
        ∈ scaleActions objs attrs ∧
      (⟨i, "z", (objs.getD i default).scale.z,
        (attrs.getD i default).oldScale.z⟩ : ChangeRecord)
        ∈ scaleActions objs attrs := by
  refine ⟨?_, ?_, ?_⟩ <;>
    exact List.mem_flatMap.mpr ⟨i, List.mem_range.mpr hi, by simp⟩

theorem mem_rotateActions (objs : List Obj) (attrs : List Attributes)
    (i : Nat) (hi : i < objs.length) :
    (⟨i, "x", (objs.getD i default).quaternion.x,
        (attrs.getD i default).oldQuaternion.x⟩ : ChangeRecord)
        ∈ rotateActions objs attrs ∧
      (⟨i, "y", (objs.getD i default).quaternion.y,
        (attrs.getD i default).oldQuaternion.y⟩ : ChangeRecord)
        ∈ rotateActions objs attrs ∧
      (⟨i, "z", (objs.getD i default).quaternion.z,
        (attrs.getD i default).oldQuaternion.z⟩ : ChangeRecord)
        ∈ rotateActions objs attrs ∧
      (⟨i, "w", (objs.getD i default).quaternion.w,
        (attrs.getD i default).oldQuaternion.w⟩ : ChangeRecord)
        ∈ rotateActions objs attrs := by
  refine ⟨?_, ?_, ?_, ?_⟩ <;>
    exact List.mem_flatMap.mpr ⟨i, List.mem_range.mpr hi, by simp⟩

/-- C3 amended: on pointer release while an edit is in progress, onPointerUp
emits one change record per scalar component of every attached object
regardless of whether the component changed (x, y, z of position or scale;
x, y, z, w of the rotation quaternion), all bundled into a single atomic
action submitted to the history sink, and always clears the editing and
dragging flags. -/
theorem pointer_up_records_all_components (s : Controls) (h : s.editing = true) :
    (onPointerUp s).1.editing = false ∧ (onPointerUp s).1.dragging = false ∧
      (s.mode = Mode.TRANSLATE → ∃ recs, (onPointerUp s).2 = some recs ∧
        recs.length = 3 * s.objects.length ∧
        ∀ i, i < s.objects.length →
          ((⟨i, "x", (s.objects.getD i default).position.x,
              (s.attributes.getD i default).oldPosition.x⟩ : ChangeRecord) ∈ recs ∧
           (⟨i, "y", (s.objects.getD i default).position.y,
              (s.attributes.getD i default).oldPosition.y⟩ : ChangeRecord) ∈ recs ∧
           (⟨i, "z", (s.objects.getD i default).position.z,
              (s.attributes.getD i default).oldPosition.z⟩ : ChangeRecord) ∈ recs)) ∧
      (s.mode = Mode.SCALE → ∃ recs, (onPointerUp s).2 = some recs ∧
        recs.length = 3 * s.objects.length ∧
        ∀ i, i < s.objects.length →
          ((⟨i, "x", (s.objects.getD i default).scale.x,
              (s.attributes.getD i default).oldScale.x⟩ : ChangeRecord) ∈ recs ∧
           (⟨i, "y", (s.objects.getD i default).scale.y,
              (s.attributes.getD i default).oldScale.y⟩ : ChangeRecord) ∈ recs ∧
           (⟨i, "z", (s.objects.getD i default).scale.z,
              (s.attributes.getD i default).oldScale.z⟩ : ChangeRecord) ∈ recs)) ∧
      (s.mode = Mode.ROTATE → ∃ recs, (onPointerUp s).2 = some recs ∧
        recs.length = 4 * s.objects.length ∧
        ∀ i, i < s.objects.length →
          ((⟨i, "x", (s.objects.getD i default).quaternion.x,
              (s.attributes.getD i default).oldQuaternion.x⟩ : ChangeRecord) ∈ recs ∧
           (⟨i, "y", (s.objects.getD i default).quaternion.y,
              (s.attributes.getD i default).oldQuaternion.y⟩ : ChangeRecord) ∈ recs ∧
           (⟨i, "z", (s.objects.getD i default).quaternion.z,
              (s.attributes.getD i default).oldQuaternion.z⟩ : ChangeRecord) ∈ recs ∧
           (⟨i, "w", (s.objects.getD i default).quaternion.w,
              (s.attributes.getD i default).oldQuaternion.w⟩ : ChangeRecord) ∈ recs)) := by
  refine ⟨rfl, rfl, fun hm => ?_, fun hm => ?_, fun hm => ?_⟩
  · refine ⟨translateActions s.objects s.attributes, ?_,
      length_translateActions .., fun i hi => mem_translateActions _ _ i hi⟩
    simp [onPointerUp, h, hm]
  · refine ⟨scaleActions s.objects s.attributes, ?_,
      length_scaleActions .., fun i hi => mem_scaleActions _ _ i hi⟩
    simp [onPointerUp, h, hm]
  · refine ⟨rotateActions s.objects s.attributes, ?_,
      length_rotateActions .., fun i hi => mem_rotateActions _ _ i hi⟩
    simp [onPointerUp, h, hm]

/-- C3 witness: the amended behavior observed at the concrete editing state
in translate mode. -/
theorem pointer_up_records_all_components_witness :
    (onPointerUp ctrlEditing).1.editing = false ∧
      (onPointerUp ctrlEditing).1.dragging = false ∧
      (∃ recs, (onPointerUp ctrlEditing).2 = some recs ∧
        recs.length = 3 * ctrlEditing.objects.length ∧
        ∀ i, i < ctrlEditing.objects.length →
          ((⟨i, "x", (ctrlEditing.objects.getD i default).position.x,
              (ctrlEditing.attributes.getD i default).oldPosition.x⟩ : ChangeRecord)
              ∈ recs ∧
           (⟨i, "y", (ctrlEditing.objects.getD i default).position.y,
              (ctrlEditing.attributes.getD i default).oldPosition.y⟩ : ChangeRecord)
              ∈ recs ∧
           (⟨i, "z", (ctrlEditing.objects.getD i default).position.z,
              (ctrlEditing.attributes.getD i default).oldPosition.z⟩ : ChangeRecord)
              ∈ recs)) :=
  ⟨(pointer_up_records_all_components ctrlEditing (by decide)).1,
   (pointer_up_records_all_components ctrlEditing (by decide)).2.1,
   (pointer_up_records_all_components ctrlEditing (by decide)).2.2.1 (by decide)⟩

/-- C3 counterexample: at a state where no transform component changed since
the snapshot, pointer-up still submits a bundle of three change records, one
per position component, rather than the zero records the claim would give for
zero changed components. -/
theorem pointer_up_no_diff_counterexample :
    (onPointerUp ctrlEditing).2 =
      some [⟨0, "x", 0, 0⟩, ⟨0, "y", 0, 0⟩, ⟨0, "z", 0, 0⟩] ∧
      (ctrlEditing.objects.getD 0 default).position
        = (ctrlEditing.attributes.getD 0 default).oldPosition := by
  exact ⟨by decide, by decide⟩

/-- C4 witness: the amended behavior at the concrete stale state and a no-hit
move frame at the baseline state. -/
theorem pointer_down_no_plane_hit_witness :
    (onPointerDown ctrlStale (some "X") none).dragging = true ∧
      ((onPointerDown ctrlStale (some "X") none).attributes.map
          (fun t => (t.oldPosition, t.oldScale, t.oldQuaternion, t.oldRotationMatrix))
        = ctrlStale.attributes.map
          (fun t => (t.oldPosition, t.oldScale, t.oldQuaternion, t.oldRotationMatrix))) ∧
      onPointerMove ctrlBase none id = some ctrlBase :=
  ⟨(pointer_down_no_plane_hit ctrlStale "X" id (by decide) (by decide) (by decide)).1,
   (pointer_down_no_plane_hit ctrlStale "X" id (by decide) (by decide) (by decide)).2.1,
   (pointer_down_no_plane_hit ctrlStale "X" id (by decide) (by decide) (by decide)).2.2 ctrlBase⟩

end NunuTransform
